import Mathlib

/-!
Verification of the Landsat-8 summer LST Dash dashboard (`app.py`).

The app is a thin client over Google Earth Engine (GEE): it authenticates,
builds server-side image requests for a selected year, and renders tile
layers plus a legend.  We shallowly embed the Python code:

* remote GEE round-trips become an explicit environment `GeeEnv` whose
  fields return `Except PyErr _` (an `.error` models a raised
  `ee.ee_exception.EEException` / generic exception);
* Python functions that may raise return `Except PyErr _` or `Option _`
  (`none` / `.error` = an exception propagating out of the modelled code);
* the numeric band arithmetic is over `ℚ` (the scale/offset constants are
  exact decimal literals);
* Dash/HTML components are reduced to the constructors the callback
  actually appends (`legend`, OSM base layer, the two GEE tile layers).
-/

/-- A Python exception value (EEException or a generic Exception), reduced
to its message. -/
structure PyErr where
  msg : String
deriving DecidableEq

/-- An opaque server-side image handle (`ee.Image`). -/
structure Image where
  id : Nat
deriving DecidableEq

/- ------------------------------------------------------------------
   Constants from app.py (lines 38, 50-56).
------------------------------------------------------------------- -/

/-- `years = list(range(2015, 2026))` (app.py line 38): the slider's
selectable years. -/
def years : List Int :=
  [2015, 2016, 2017, 2018, 2019, 2020, 2021, 2022, 2023, 2024, 2025]

/-- `LST_MIN = 10` (app.py line 50). -/
def LST_MIN : ℚ := 10

/-- `LST_MAX = 45` (app.py line 51). -/
def LST_MAX : ℚ := 45

/-- `LST_PALETTE` (app.py lines 52-56): the 14-colour LST palette. -/
def LST_PALETTE : List String :=
  ["040274", "0502a3", "0502ce", "0602ff", "307ef3",
   "30c8e2", "3be285", "86e26f", "b5e22e", "ffd611",
   "ff8b13", "ff0000", "c21301", "911003"]

/- ------------------------------------------------------------------
   mask_clouds_and_scale (app.py lines 64-69).
------------------------------------------------------------------- -/

/-- `cloud_bit_mask = 1 << 3` (app.py line 66). -/
def cloud_bit_mask : Nat := 1 <<< 3

/-- `cloud_shadow_bit_mask = 1 << 4` (app.py line 67). -/
def cloud_shadow_bit_mask : Nat := 1 <<< 4

/-- The per-pixel boolean mask of `mask_clouds_and_scale` (app.py line 68):
`qa.bitwiseAnd(cloud_bit_mask).eq(0).And(qa.bitwiseAnd(cloud_shadow_bit_mask).eq(0))`.
`true` means the pixel is kept (included); `false` means `updateMask`
excludes it. -/
def cloudMask (qa : Nat) : Bool :=
  (qa &&& cloud_bit_mask == 0) && (qa &&& cloud_shadow_bit_mask == 0)

/-- The per-band rescaling of `mask_clouds_and_scale` (app.py line 69):
`.multiply(0.0000275).add(-0.2)`. -/
def scaleReflectance (raw : ℚ) : ℚ := raw * 0.0000275 + (-0.2)

/- ------------------------------------------------------------------
   Temperature scaling used by get_l8_summer_lst (app.py lines 109-111):
   `.multiply(0.00341802).add(149.0).subtract(273.15)`.
------------------------------------------------------------------- -/

/-- Kelvin to Celsius, the `.subtract(273.15)` step (app.py line 111). -/
def kelvinToCelsius (k : ℚ) : ℚ := k - 273.15

/-- Celsius back to Kelvin (the inverse of the `.subtract(273.15)` step). -/
def celsiusToKelvin (c : ℚ) : ℚ := c + 273.15

/-- The full ST_B10 digital-number to Celsius chain (app.py lines 109-111). -/
def lstScaleToCelsius (raw : ℚ) : ℚ :=
  kelvinToCelsius (raw * 0.00341802 + 149.0)

/- ------------------------------------------------------------------
   Claims C1, C5, C6.
------------------------------------------------------------------- -/

/-- C1 (counterexample): the claim says a pixel whose QA value has neither
bit 3 nor bit 5 set is included, but QA = 16 (only bit 4, the cloud-shadow
bit, set) has neither bit 3 nor bit 5 set and is nevertheless excluded
(`cloudMask 16 = false`). -/
theorem c1_bit5_counterexample :
    Nat.testBit 16 3 = false ∧ Nat.testBit 16 5 = false ∧ cloudMask 16 = false := by
  decide

/-- C1 (amended): the per-pixel mask of `mask_clouds_and_scale` is a pure
boolean predicate over the integer QA bitmask that includes a pixel iff
neither bit 3 (cloud) nor bit 4 (cloud shadow) is set; in particular a QA
value with bit 3 and bit 4 both set is excluded, and one with neither set
is included. -/
theorem c1_cloudMask_bits_3_and_4 (qa : Nat) :
    cloudMask qa = true ↔ (qa.testBit 3 = false ∧ qa.testBit 4 = false) := by
  have h3 : qa &&& cloud_bit_mask = (qa.testBit 3).toNat * 2 ^ 3 := by
    simpa [cloud_bit_mask, Nat.shiftLeft_eq] using Nat.and_two_pow qa 3
  have h4 : qa &&& cloud_shadow_bit_mask = (qa.testBit 4).toNat * 2 ^ 4 := by
    simpa [cloud_shadow_bit_mask, Nat.shiftLeft_eq] using Nat.and_two_pow qa 4
  simp only [cloudMask, h3, h4, Bool.and_eq_true, beq_iff_eq, Nat.mul_eq_zero]
  cases hb3 : qa.testBit 3 <;> cases hb4 : qa.testBit 4 <;> simp

/-- C5: the reflectance rescaling is the pure affine map
`raw * 0.0000275 + (-0.2)` exactly, and input 20000 yields exactly 0.35. -/
theorem c5_reflectance_rescaling :
    (∀ raw : ℚ, scaleReflectance raw = raw * 0.0000275 + (-0.2)) ∧
      scaleReflectance 20000 = 0.35 := by
  constructor
  · intro raw; rfl
  · norm_num [scaleReflectance]

/-- C6: the Kelvin/Celsius conversion used by the LST pipeline round-trips
exactly over ℚ: subtracting 273.15 then adding 273.15 recovers the input. -/
theorem c6_temperature_round_trip (k : ℚ) :
    celsiusToKelvin (kelvinToCelsius k) = k := by
  simp [celsiusToKelvin, kelvinToCelsius]

/- ------------------------------------------------------------------
   The remote GEE service, as an abstract environment.

   `lstSize`/`compositeSize` model the synchronous round-trip
   `collection.size().getInfo()` for the LST collection (Taiwan-central
   bounds, Jun 1 - Aug 31, CLOUD_COVER < 60; app.py lines 97-103) and the
   composite collection (whole-island bounds, Jun 1 - Jul 31; app.py
   lines 73-79).  `lstImage`/`compositeImage` bundle the remaining
   request-building steps of each function (cloud masking, median
   compositing, rescaling, the 10-iteration focal-mean hole filling and
   the clip; app.py lines 82-86 and 106-117).  `getMapIdComposite` /
   `getMapIdLst` model `image.getMapId(VIS_PARAMS)` /
   `image.getMapId(LST_VIS)` returning `tile_fetcher.url_format`
   (app.py lines 468-469 and 486-487).  An `.error` is a raised
   exception.
------------------------------------------------------------------- -/

structure GeeEnv where
  compositeSize : Int → Except PyErr Nat
  compositeImage : Int → Except PyErr Image
  lstSize : Int → Except PyErr Nat
  lstImage : Int → Except PyErr Image
  getMapIdComposite : Image → Except PyErr String
  getMapIdLst : Image → Except PyErr String

/-- The `try`-block body of `get_l8_summer_composite` (app.py lines
72-86): query the collection size (a remote round-trip that may raise),
return `None` when it is 0, otherwise build the masked median composite
with hole filling and clip (which may also raise). -/
def l8SummerCompositeBody (env : GeeEnv) (year : Int) : Except PyErr (Option Image) :=
  match env.compositeSize year with
  | .error e => .error e
  | .ok n =>
    if n == 0 then .ok none
    else
      match env.compositeImage year with
      | .error e => .error e
      | .ok img => .ok (some img)

/-- `get_l8_summer_composite` (app.py lines 71-92): the body wrapped in
`except ee.ee_exception.EEException` / `except Exception` handlers that
print and return `None`. -/
def get_l8_summer_composite (env : GeeEnv) (year : Int) : Except PyErr (Option Image) :=
  match l8SummerCompositeBody env year with
  | .error _ => .ok none
  | .ok r => .ok r

/-- The `try`-block body of `get_l8_summer_lst` (app.py lines 96-118). -/
def l8SummerLstBody (env : GeeEnv) (year : Int) : Except PyErr (Option Image) :=
  match env.lstSize year with
  | .error e => .error e
  | .ok n =>
    if n == 0 then .ok none
    else
      match env.lstImage year with
      | .error e => .error e
      | .ok img => .ok (some img)

/-- `get_l8_summer_lst` (app.py lines 95-124): the body wrapped in
`except ee.ee_exception.EEException` / `except Exception` handlers that
print and return `None`. -/
def get_l8_summer_lst (env : GeeEnv) (year : Int) : Except PyErr (Option Image) :=
  match l8SummerLstBody env year with
  | .error _ => .ok none
  | .ok r => .ok r

/-- A remote service on which every collection query reports 0 images. -/
def emptyRemote : GeeEnv where
  compositeSize := fun _ => .ok 0
  compositeImage := fun _ => .error ⟨"should not be consulted"⟩
  lstSize := fun _ => .ok 0
  lstImage := fun _ => .error ⟨"should not be consulted"⟩
  getMapIdComposite := fun _ => .error ⟨"should not be consulted"⟩
  getMapIdLst := fun _ => .error ⟨"should not be consulted"⟩

/-- A remote service on which every call succeeds with data. -/
def demoRemote : GeeEnv where
  compositeSize := fun _ => .ok 7
  compositeImage := fun _ => .ok ⟨1⟩
  lstSize := fun _ => .ok 9
  lstImage := fun _ => .ok ⟨2⟩
  getMapIdComposite := fun _ => .ok "https://earthengine.example/composite/tiles"
  getMapIdLst := fun _ => .ok "https://earthengine.example/lst/tiles"

/-- Both request builders catch every exception of their body and return a
value; shared helper for the LST builder. -/
theorem get_l8_summer_lst_isOk (env : GeeEnv) (year : Int) :
    ∃ r : Option Image, get_l8_summer_lst env year = .ok r := by
  unfold get_l8_summer_lst
  cases l8SummerLstBody env year <;> exact ⟨_, rfl⟩

/-- Shared helper: the composite builder never propagates an exception. -/
theorem get_l8_summer_composite_isOk (env : GeeEnv) (year : Int) :
    ∃ r : Option Image, get_l8_summer_composite env year = .ok r := by
  unfold get_l8_summer_composite
  cases l8SummerCompositeBody env year <;> exact ⟨_, rfl⟩

/-- C3: for every year in the selectable range 2015-2025 and every
behaviour of the remote service (including any raised exception), both
request builders return normally with either an image handle
(`some img`) or the no-data sentinel `none` — never a propagated
exception. -/
theorem c3_builders_never_raise (env : GeeEnv) (year : Int)
    (h1 : 2015 ≤ year) (h2 : year ≤ 2025) :
    (∃ r : Option Image, get_l8_summer_lst env year = .ok r) ∧
      (∃ r : Option Image, get_l8_summer_composite env year = .ok r) :=
  ⟨get_l8_summer_lst_isOk env year, get_l8_summer_composite_isOk env year⟩

/-- Witness for C3 at year 2020 on a concrete remote service. -/
theorem c3_builders_never_raise_witness :
    ((2015 : Int) ≤ 2020 ∧ (2020 : Int) ≤ 2025) ∧
      ((∃ r : Option Image, get_l8_summer_lst emptyRemote 2020 = .ok r) ∧
        (∃ r : Option Image, get_l8_summer_composite emptyRemote 2020 = .ok r)) :=
  ⟨⟨by decide, by decide⟩, c3_builders_never_raise emptyRemote 2020 (by decide) (by decide)⟩

/-- C4: whenever the synchronous size round-trip reports an empty filtered
collection, each builder returns the `None` sentinel — and since the
theorem holds for every environment, in particular for ones whose
masking/median/rescaling/hole-filling computation would raise, none of
those later steps is consulted. -/
theorem c4_empty_collection_short_circuits (env : GeeEnv) (year : Int)
    (hl : env.lstSize year = .ok 0) (hc : env.compositeSize year = .ok 0) :
    get_l8_summer_lst env year = .ok none ∧
      get_l8_summer_composite env year = .ok none := by
  constructor
  · unfold get_l8_summer_lst l8SummerLstBody
    rw [hl]
    rfl
  · unfold get_l8_summer_composite l8SummerCompositeBody
    rw [hc]
    rfl

/-- Witness for C4 on the empty remote service (whose image-building
fields all raise, confirming they are not consulted). -/
theorem c4_empty_collection_short_circuits_witness :
    (emptyRemote.lstSize 2019 = .ok 0 ∧ emptyRemote.compositeSize 2019 = .ok 0) ∧
      (get_l8_summer_lst emptyRemote 2019 = .ok none ∧
        get_l8_summer_composite emptyRemote 2019 = .ok none) :=
  ⟨⟨rfl, rfl⟩, c4_empty_collection_short_circuits emptyRemote 2019 rfl rfl⟩

/- ------------------------------------------------------------------
   Python string helpers: `sub in s` and `s.replace(old, new)`.
------------------------------------------------------------------- -/

/-- Naive substring search over character lists. -/
def hasSubAux (pat : List Char) : List Char → Bool
  | [] => pat.isEmpty
  | c :: rest => pat.isPrefixOf (c :: rest) || hasSubAux pat rest

/-- Python's `sub in s` membership test on strings. -/
def strContains (s sub : String) : Bool :=
  hasSubAux sub.data s.data

/-- Fuel-bounded replace-all over character lists (the fuel is the length
of the haystack, which bounds the number of steps). -/
def replaceFuel (pat rep : List Char) : Nat → List Char → List Char
  | _, [] => []
  | 0, l => l
  | fuel + 1, c :: rest =>
    if !pat.isEmpty && pat.isPrefixOf (c :: rest) then
      rep ++ replaceFuel pat rep fuel (List.drop pat.length (c :: rest))
    else
      c :: replaceFuel pat rep fuel rest

/-- Python's `s.replace(old, new)` (replace every occurrence, left to
right, non-overlapping). -/
def strReplace (s old new : String) : String :=
  ⟨replaceFuel old.data new.data s.data.length s.data⟩

/- ------------------------------------------------------------------
   The status strings produced by update_map_layer (app.py lines 445,
   478, 481, 497, 499, 502, 506).
------------------------------------------------------------------- -/

/-- Initial status (app.py line 445). -/
def loadingStatus (year : Int) : String :=
  "當前年份: " ++ toString year ++ " (LST 與底圖數據載入中...)"

/-- Composite tile layer added successfully (app.py line 478). -/
def compositeOkStatus (year : Int) : String :=
  "當前年份: " ++ toString year ++ " (台灣全島底圖載入成功)"

/-- Composite tile generation raised (app.py line 481). -/
def compositeFailStatus (year : Int) (msg : String) : String :=
  "當前年份: " ++ toString year ++ " (台灣全島底圖載入失敗，原因：" ++ msg ++ ")"

/-- LST layer succeeded after the composite failed (app.py line 499). -/
def lstOnlyOkStatus (year : Int) : String :=
  "當前年份: " ++ toString year ++ " (底圖失敗，但中部 LST 圖層載入成功)"

/-- LST tile generation raised (app.py line 502). -/
def lstFailStatus (year : Int) (msg : String) : String :=
  "當前年份: " ++ toString year ++ " (LST 影像處理錯誤：" ++ msg ++ ")"

/-- No GEE imagery available for the year (app.py line 506). -/
def noDataStatus (year : Int) : String :=
  "當前年份: " ++ toString year ++ " (無可用 GEE 影像資料)"


/- ------------------------------------------------------------------
   create_lst_legend (app.py lines 129-372).

   Python list indexing `palette[i]` is modelled by `palette[i]?`
   (`none` = an IndexError propagating) and Python `/` by `pyDiv`
   (`none` = a ZeroDivisionError propagating); a `none` overall result
   of `create_lst_legend` therefore models the call raising.  The
   function builds and discards several intermediate lists (`labels`,
   `new_labels`, `color_band`, `legend_items`, app.py lines 142-297);
   they are still computed here because their palette indexing and
   divisions are the places an exception could occur.  Entries carry
   their colour and temperature value; the `:.1f` number formatting and
   the CSS of the emitted `html.Div` are not modelled.
------------------------------------------------------------------- -/

/-- Python `/` on exact rationals: raises (models `ZeroDivisionError`)
on a zero denominator. -/
def pyDiv (a b : ℚ) : Option ℚ :=
  if b = 0 then none else some (a / b)

/-- A Python `for`-loop over indices that appends one element per
iteration and may raise (`none`) at any iteration. -/
def pyMap {α : Type} (f : Nat → Option α) : List Nat → Option (List α)
  | [] => some []
  | i :: is =>
    match f i with
    | none => none
    | some a =>
      match pyMap f is with
      | none => none
      | some as => some (a :: as)

/-- The parts of the returned legend `html.Div` that are data rather than
CSS: the computed temperature step (app.py lines 137-140), the colour
band from hottest to coldest (app.py lines 321-329), and the five printed
axis temperatures (app.py lines 332-351). -/
structure Legend where
  temp_step : ℚ
  bandColors : List String
  labelPoints : List ℚ
deriving DecidableEq

/-- The body of the `legend_items` loop (app.py lines 276-297): the axis
step `(LST_MAX - LST_MIN) / (num_points - 1)` with `num_points = 5`, the
i-th axis temperature, and the normalisation
`(temp - LST_MIN) / (LST_MAX - LST_MIN)` (app.py line 281), both
divisions modelled as fallible. -/
def legendItemEntry (i : Nat) : Option ℚ :=
  match pyDiv (LST_MAX - LST_MIN) ((5 : ℚ) - 1) with
  | none => none
  | some step =>
    match pyDiv ((LST_MAX - (i : ℚ) * step) - LST_MIN) (LST_MAX - LST_MIN) with
    | none => none
    | some _norm_temp => some (LST_MAX - (i : ℚ) * step)

/-- `create_lst_legend(min_val, max_val, palette)` (app.py lines
129-372). -/
def create_lst_legend (min_val max_val : ℚ) (palette : List String) : Option Legend :=
  match (if 1 < palette.length then
      pyDiv (max_val - min_val) ((palette.length : ℚ) - 1)
    else some 0) with
  | none => none
  | some temp_step =>
    match pyMap
        (fun i => (palette[i]?).map (fun c => (c, min_val + (i : ℚ) * temp_step)))
        (List.range palette.length) with
    | none => none
    | some _labels =>
      match pyMap
          (fun i => (palette[palette.length - 1 - i]?).map
            (fun c => (c, max_val - (i : ℚ) * temp_step)))
          (List.range palette.length) with
      | none => none
      | some _new_labels =>
        match pyMap
            (fun i => (palette[palette.length - 1 - i]?).map
              (fun c => (c, max_val - (i : ℚ) * temp_step)))
            (List.range palette.length) with
        | none => none
        | some _color_band =>
          match pyMap legendItemEntry (List.range 5) with
          | none => none
          | some _legend_items =>
            match pyMap (fun k => palette[palette.length - 1 - k]?)
                (List.range palette.length) with
            | none => none
            | some bandColors =>
              some { temp_step := temp_step
                     bandColors := bandColors
                     labelPoints := [LST_MAX,
                       LST_MAX - 1 * (LST_MAX - LST_MIN) / 4,
                       LST_MAX - 2 * (LST_MAX - LST_MIN) / 4,
                       LST_MAX - 3 * (LST_MAX - LST_MIN) / 4,
                       LST_MIN] }

/-- Shared helper: list indexing at an in-range position succeeds. -/
theorem getElem?_isSome_of_lt {α : Type} (l : List α) (i : Nat) (h : i < l.length) :
    l[i]?.isSome := by
  rw [List.getElem?_eq_getElem h]
  rfl

/-- Shared helper: a `pyMap` whose body succeeds at every listed index
succeeds. -/
theorem pyMap_isSome {α : Type} (f : Nat → Option α) :
    ∀ l : List Nat, (∀ i ∈ l, (f i).isSome) → ∃ ys, pyMap f l = some ys := by
  intro l
  induction l with
  | nil => exact fun _ => ⟨[], rfl⟩
  | cons i is ih =>
    intro h
    obtain ⟨a, ha⟩ := Option.isSome_iff_exists.mp (h i (List.mem_cons_self i is))
    obtain ⟨ys, hys⟩ := ih (fun j hj => h j (List.mem_cons_of_mem i hj))
    exact ⟨a :: ys, by simp [pyMap, ha, hys]⟩

/-- Shared helper: once the temperature-step branch evaluates to a value,
every later step of `create_lst_legend` succeeds. -/
theorem create_lst_legend_eq_of_step (min_val max_val : ℚ) (palette : List String) (s : ℚ)
    (hstep : (if 1 < palette.length then
        pyDiv (max_val - min_val) ((palette.length : ℚ) - 1)
      else some 0) = some s) :
    ∃ bc, create_lst_legend min_val max_val palette =
      some { temp_step := s
             bandColors := bc
             labelPoints := [LST_MAX,
               LST_MAX - 1 * (LST_MAX - LST_MIN) / 4,
               LST_MAX - 2 * (LST_MAX - LST_MIN) / 4,
               LST_MAX - 3 * (LST_MAX - LST_MIN) / 4,
               LST_MIN] } := by
  obtain ⟨l1, hm1⟩ := pyMap_isSome
    (fun i => (palette[i]?).map (fun c => (c, min_val + (i : ℚ) * s)))
    (List.range palette.length)
    (by
      intro i hi
      obtain ⟨c, hc⟩ := Option.isSome_iff_exists.mp
        (getElem?_isSome_of_lt palette i (List.mem_range.mp hi))
      simp [hc])
  obtain ⟨l2, hm2⟩ := pyMap_isSome
    (fun i => (palette[palette.length - 1 - i]?).map
      (fun c => (c, max_val - (i : ℚ) * s)))
    (List.range palette.length)
    (by
      intro i hi
      have hlt : i < palette.length := List.mem_range.mp hi
      obtain ⟨c, hc⟩ := Option.isSome_iff_exists.mp
        (getElem?_isSome_of_lt palette (palette.length - 1 - i) (by omega))
      simp [hc])
  obtain ⟨l4, hm4⟩ := pyMap_isSome legendItemEntry (List.range 5)
    (by
      intro i hi
      have hd1 : ((5 : ℚ) - 1) ≠ 0 := by norm_num
      have hd2 : (LST_MAX - LST_MIN) ≠ 0 := by norm_num [LST_MAX, LST_MIN]
      simp [legendItemEntry, pyDiv, hd1, hd2])
  obtain ⟨bc, hm5⟩ := pyMap_isSome
    (fun k => palette[palette.length - 1 - k]?)
    (List.range palette.length)
    (by
      intro i hi
      have hlt : i < palette.length := List.mem_range.mp hi
      exact getElem?_isSome_of_lt palette (palette.length - 1 - i) (by omega))
  refine ⟨bc, ?_⟩
  simp only [create_lst_legend, hstep, hm1, hm2, hm4, hm5]

/-- Shared helper: `create_lst_legend` never raises, and with at most one
colour its temperature step is 0. -/
theorem create_lst_legend_isSome (min_val max_val : ℚ) (palette : List String) :
    ∃ lg, create_lst_legend min_val max_val palette = some lg ∧
      (palette.length ≤ 1 → lg.temp_step = 0) := by
  by_cases hn : 1 < palette.length
  · have hone : (1 : ℚ) < (palette.length : ℚ) := by exact_mod_cast hn
    have hden : ((palette.length : ℚ) - 1) ≠ 0 := by
      intro h
      rw [sub_eq_zero] at h
      exact absurd h.symm (ne_of_lt hone)
    obtain ⟨bc, hbc⟩ := create_lst_legend_eq_of_step min_val max_val palette
      ((max_val - min_val) / ((palette.length : ℚ) - 1))
      (by simp [hn, pyDiv, hden])
    exact ⟨_, hbc, fun hle => absurd hn (by omega)⟩
  · obtain ⟨bc, hbc⟩ := create_lst_legend_eq_of_step min_val max_val palette 0
      (by simp [hn])
    exact ⟨_, hbc, fun _ => rfl⟩

/- ------------------------------------------------------------------
   update_map_layer (app.py lines 434-508).
------------------------------------------------------------------- -/

/-- The children the callback appends to the leaflet map: the legend
`html.Div`, the global OSM base `dl.TileLayer` (app.py lines 457-463),
and the two GEE `dl.TileLayer`s carrying their tile URL and the year of
their attribution string (app.py lines 470-476 and 488-494). -/
inductive Component where
  | legend (lg : Legend)
  | osmTileLayer
  | geeCompositeLayer (url : String) (year : Int)
  | geeLstLayer (url : String) (year : Int)
deriving DecidableEq

/-- `update_map_layer(selected_year, current_children)` (app.py lines
439-508).  Returns the pair of Dash outputs `(leaflet-map children,
year-display text)`; `.error` models an exception propagating out of the
callback.  `current_children` is unused by the Python body and omitted.
The Python mutation of `new_children` / `status_text` becomes let
shadowing; the two `try`/`except ee.ee_exception.EEException` blocks
around `getMapId` become matches on the environment's result. -/
def update_map_layer (env : GeeEnv) (selected_year : Int) :
    Except PyErr (List Component × String) :=
  match create_lst_legend LST_MIN LST_MAX LST_PALETTE with
  | none => .error ⟨"create_lst_legend raised"⟩
  | some legend_component =>
    let status_text := loadingStatus selected_year
    match get_l8_summer_lst env selected_year with
    | .error e => .error e
    | .ok lst_image =>
      match get_l8_summer_composite env selected_year with
      | .error e => .error e
      | .ok composite_image =>
        let new_children := [Component.legend legend_component, Component.osmTileLayer]
        let (new_children, status_text) :=
          match composite_image with
          | none => (new_children, status_text)
          | some img =>
            match env.getMapIdComposite img with
            | .ok tile_url_comp =>
              (new_children ++ [Component.geeCompositeLayer tile_url_comp selected_year],
               compositeOkStatus selected_year)
            | .error e => (new_children, compositeFailStatus selected_year e.msg)
        let (new_children, status_text) :=
          match lst_image with
          | some img =>
            match env.getMapIdLst img with
            | .ok tile_url =>
              (new_children ++ [Component.geeLstLayer tile_url selected_year],
               if strContains status_text "載入失敗" then lstOnlyOkStatus selected_year
               else strReplace status_text "載入成功" "及中部 LST 圖層載入成功")
            | .error e => (new_children, lstFailStatus selected_year e.msg)
          | none =>
            (new_children,
             if strContains status_text "載入成功" then status_text
             else noDataStatus selected_year)
        .ok (new_children, status_text)

/- ------------------------------------------------------------------
   Claims C7, C8, C9, C10.
------------------------------------------------------------------- -/

/-- C7: for a selected year for which both request builders return the
no-data sentinel, the callback returns normally with only the legend and
the OSM base layer (no GEE tile layers) and the human-readable no-data
status string `當前年份: {year} (無可用 GEE 影像資料)`. -/
theorem c7_no_data_placeholder (env : GeeEnv) (year : Int)
    (hy : year ∈ years)
    (hl : get_l8_summer_lst env year = .ok none)
    (hc : get_l8_summer_composite env year = .ok none) :
    ∃ lg, update_map_layer env year =
      .ok ([Component.legend lg, Component.osmTileLayer], noDataStatus year) := by
  obtain ⟨lg, hlg, -⟩ := create_lst_legend_isSome LST_MIN LST_MAX LST_PALETTE
  refine ⟨lg, ?_⟩
  simp only [update_map_layer, hlg, hl, hc]
  simp only [years, List.mem_cons, List.not_mem_nil, or_false] at hy
  rcases hy with rfl | rfl | rfl | rfl | rfl | rfl | rfl | rfl | rfl | rfl | rfl <;>
    rw [if_neg (by decide)]

/-- Witness for C7: on the remote service whose collections are empty for
every year, selecting 2020 yields the placeholder children and the
no-data status. -/
theorem c7_no_data_placeholder_witness :
    ((2020 : Int) ∈ years ∧ get_l8_summer_lst emptyRemote 2020 = .ok none ∧
      get_l8_summer_composite emptyRemote 2020 = .ok none) ∧
      ∃ lg, update_map_layer emptyRemote 2020 =
        .ok ([Component.legend lg, Component.osmTileLayer], noDataStatus 2020) :=
  ⟨⟨by decide, rfl, rfl⟩, c7_no_data_placeholder emptyRemote 2020 (by decide) rfl rfl⟩

/-- C8: for a selected year on which both builders return images and both
`getMapId` calls succeed with a non-empty tile URL, the callback's
rendered children contain the composite and the LST tile layers carrying
those URLs, and the status string contains the year. -/
theorem c8_valid_year_renders_tiles (env : GeeEnv) (year : Int)
    (imgL imgC : Image) (urlC urlL : String)
    (hy : year ∈ years)
    (hl : get_l8_summer_lst env year = .ok (some imgL))
    (hc : get_l8_summer_composite env year = .ok (some imgC))
    (hmc : env.getMapIdComposite imgC = .ok urlC)
    (hml : env.getMapIdLst imgL = .ok urlL)
    (hne : urlL ≠ "") :
    ∃ lg st,
      update_map_layer env year =
        .ok ([Component.legend lg, Component.osmTileLayer,
              Component.geeCompositeLayer urlC year,
              Component.geeLstLayer urlL year], st) ∧
        strContains st (toString year) = true ∧ urlL ≠ "" := by
  obtain ⟨lg, hlg, -⟩ := create_lst_legend_isSome LST_MIN LST_MAX LST_PALETTE
  have hupd : update_map_layer env year =
      .ok ([Component.legend lg, Component.osmTileLayer,
            Component.geeCompositeLayer urlC year,
            Component.geeLstLayer urlL year],
        if strContains (compositeOkStatus year) "載入失敗" then lstOnlyOkStatus year
        else strReplace (compositeOkStatus year) "載入成功" "及中部 LST 圖層載入成功") := by
    simp only [update_map_layer, hlg, hl, hc, hmc, hml, List.cons_append, List.nil_append]
  refine ⟨lg, _, hupd, ?_, hne⟩
  simp only [years, List.mem_cons, List.not_mem_nil, or_false] at hy
  rcases hy with rfl | rfl | rfl | rfl | rfl | rfl | rfl | rfl | rfl | rfl | rfl <;> decide

/-- Witness for C8: on the all-successful remote service, selecting 2025
renders both GEE tile layers and a status mentioning 2025. -/
theorem c8_valid_year_renders_tiles_witness :
    ((2025 : Int) ∈ years ∧
      get_l8_summer_lst demoRemote 2025 = .ok (some ⟨2⟩) ∧
      get_l8_summer_composite demoRemote 2025 = .ok (some ⟨1⟩) ∧
      demoRemote.getMapIdComposite ⟨1⟩ = .ok "https://earthengine.example/composite/tiles" ∧
      demoRemote.getMapIdLst ⟨2⟩ = .ok "https://earthengine.example/lst/tiles" ∧
      "https://earthengine.example/lst/tiles" ≠ "") ∧
      ∃ lg st,
        update_map_layer demoRemote 2025 =
          .ok ([Component.legend lg, Component.osmTileLayer,
                Component.geeCompositeLayer "https://earthengine.example/composite/tiles" 2025,
                Component.geeLstLayer "https://earthengine.example/lst/tiles" 2025], st) ∧
          strContains st (toString (2025 : Int)) = true ∧
          "https://earthengine.example/lst/tiles" ≠ "" :=
  ⟨⟨by decide, rfl, rfl, rfl, rfl, by decide⟩,
    c8_valid_year_renders_tiles demoRemote 2025 ⟨2⟩ ⟨1⟩
      "https://earthengine.example/composite/tiles" "https://earthengine.example/lst/tiles"
      (by decide) rfl rfl rfl rfl (by decide)⟩

/-- C9: whatever the remote service does (success, empty collections or
raised exceptions in any combination), the children list the callback
returns always starts with the LST legend followed by the OSM base tile
layer. -/
theorem c9_legend_and_osm_always_first (env : GeeEnv) (year : Int) :
    ∃ lg rest st, update_map_layer env year =
      .ok (Component.legend lg :: Component.osmTileLayer :: rest, st) := by
  obtain ⟨lg, hlg, -⟩ := create_lst_legend_isSome LST_MIN LST_MAX LST_PALETTE
  obtain ⟨r1, h1⟩ := get_l8_summer_lst_isOk env year
  obtain ⟨r2, h2⟩ := get_l8_summer_composite_isOk env year
  cases r2 with
  | none =>
    cases r1 with
    | none =>
      simp only [update_map_layer, hlg, h1, h2]
      exact ⟨lg, _, _, rfl⟩
    | some imgL =>
      simp only [update_map_layer, hlg, h1, h2]
      cases hml : env.getMapIdLst imgL with
      | error e => simp only [hml]; exact ⟨lg, _, _, rfl⟩
      | ok url => simp only [hml]; exact ⟨lg, _, _, rfl⟩
  | some imgC =>
    cases r1 with
    | none =>
      simp only [update_map_layer, hlg, h1, h2]
      cases hmc : env.getMapIdComposite imgC with
      | error e => simp only [hmc]; exact ⟨lg, _, _, rfl⟩
      | ok urlC => simp only [hmc]; exact ⟨lg, _, _, rfl⟩
    | some imgL =>
      simp only [update_map_layer, hlg, h1, h2]
      cases hmc : env.getMapIdComposite imgC with
      | error e =>
        simp only [hmc]
        cases hml : env.getMapIdLst imgL with
        | error e2 => simp only [hml]; exact ⟨lg, _, _, rfl⟩
        | ok url => simp only [hml]; exact ⟨lg, _, _, rfl⟩
      | ok urlC =>
        simp only [hmc]
        cases hml : env.getMapIdLst imgL with
        | error e2 => simp only [hml]; exact ⟨lg, _, _, rfl⟩
        | ok url => simp only [hml]; exact ⟨lg, _, _, rfl⟩

/-- C10: `create_lst_legend` is total for every palette: it returns a
legend without raising (no IndexError, no ZeroDivisionError), and when the
palette has at most one colour the temperature step is 0 thanks to the
explicit guard. -/
theorem c10_legend_total_every_palette (min_val max_val : ℚ) (palette : List String) :
    ∃ lg, create_lst_legend min_val max_val palette = some lg ∧
      (palette.length ≤ 1 → lg.temp_step = 0) :=
  create_lst_legend_isSome min_val max_val palette

/-- Witness for C10 at the empty palette: a legend is produced and its
temperature step is 0. -/
theorem c10_legend_total_every_palette_witness :
    ∃ lg, create_lst_legend LST_MIN LST_MAX [] = some lg ∧
      (List.length ([] : List String) ≤ 1 → lg.temp_step = 0) :=
  c10_legend_total_every_palette LST_MIN LST_MAX []

/- ------------------------------------------------------------------
   Module-level credential bootstrap (app.py lines 14-29).

   `geeServiceSecret` is the raw environment variable
   (`os.environ.get("GEE_SERVICE_SECRET", "")` maps `none` to `""`).
   `parseJson` is `json.loads` (`none` = it raises
   `json.JSONDecodeError`); `serviceInit` bundles
   `service_account.Credentials.from_service_account_info` and
   `ee.Initialize(credentials)` (both outside any `try`, so an `.error`
   propagates and aborts startup); `localInit` is the `ee.Initialize()`
   fallback, whose exception is caught and only printed.
------------------------------------------------------------------- -/

/-- The parsed service-account JSON blob (opaque). -/
structure ServiceAccountInfo where
  raw : String
deriving DecidableEq

/-- How the process got past the bootstrap. -/
inductive BootstrapOutcome where
  | localDefault
  | localFailedContinued
  | serviceAccount
deriving DecidableEq

/-- The process environment and the fallible calls the bootstrap makes. -/
structure CredEnv where
  geeServiceSecret : Option String
  parseJson : String → Option ServiceAccountInfo
  localInit : Except PyErr Unit
  serviceInit : ServiceAccountInfo → Except PyErr Unit

/-- The module-level credential bootstrap (app.py lines 14-29): an
`.error` result is an uncaught exception terminating startup, an `.ok`
result means the process continues running. -/
def credentialBootstrap (env : CredEnv) : Except PyErr BootstrapOutcome :=
  let GEE_SECRET := env.geeServiceSecret.getD ""
  if GEE_SECRET = "" then
    match env.localInit with
    | .ok _ => .ok .localDefault
    | .error _ => .ok .localFailedContinued
  else
    match env.parseJson GEE_SECRET with
    | none => .error ⟨"json.JSONDecodeError"⟩
    | some info =>
      match env.serviceInit info with
      | .ok _ => .ok .serviceAccount
      | .error e => .error e

/-- An environment where `GEE_SERVICE_SECRET` is absent. -/
def envVarAbsent : CredEnv where
  geeServiceSecret := none
  parseJson := fun _ => none
  localInit := .ok ()
  serviceInit := fun _ => .ok ()

/-- An environment where `GEE_SERVICE_SECRET` holds malformed JSON. -/
def envVarMalformed : CredEnv where
  geeServiceSecret := some "not valid json"
  parseJson := fun _ => none
  localInit := .ok ()
  serviceInit := fun _ => .ok ()

/- ------------------------------------------------------------------
   Claim C2.
------------------------------------------------------------------- -/

/-- C2 (counterexample): the claim says the bootstrap fails fatally
whenever the credential environment variable is absent, but with the
variable absent the code takes the `ee.Initialize()` fallback branch and
the process continues running (the bootstrap returns normally). -/
theorem c2_absent_secret_counterexample :
    envVarAbsent.geeServiceSecret = none ∧
      credentialBootstrap envVarAbsent = .ok BootstrapOutcome.localDefault :=
  ⟨rfl, rfl⟩

/-- C2 (amended): the bootstrap fails fatally (raises, terminating
startup, with no retry) whenever the credential environment variable
holds a non-empty malformed JSON string; but when the variable is absent
(or empty) it instead falls back to local default credentials inside a
`try`/`except` and the process continues running whether or not that
fallback succeeds. -/
theorem c2_fatal_only_on_malformed_json (env : CredEnv) :
    (∀ s, env.geeServiceSecret = some s → s ≠ "" → env.parseJson s = none →
      credentialBootstrap env = .error ⟨"json.JSONDecodeError"⟩) ∧
      ((env.geeServiceSecret = none ∨ env.geeServiceSecret = some "") →
        ∃ o, credentialBootstrap env = .ok o) := by
  constructor
  · intro s hs hne hp
    simp [credentialBootstrap, hs, hne, hp]
  · intro h
    have hs : env.geeServiceSecret.getD "" = "" := by
      rcases h with h | h <;> simp [h]
    cases hli : env.localInit with
    | ok u => exact ⟨BootstrapOutcome.localDefault, by simp [credentialBootstrap, hs, hli]⟩
    | error e =>
      exact ⟨BootstrapOutcome.localFailedContinued, by simp [credentialBootstrap, hs, hli]⟩

/-- Witness for C2 (amended): a malformed secret aborts startup and an
absent secret lets the process continue. -/
theorem c2_fatal_only_on_malformed_json_witness :
    (envVarMalformed.geeServiceSecret = some "not valid json" ∧
      "not valid json" ≠ "" ∧
      envVarMalformed.parseJson "not valid json" = none ∧
      credentialBootstrap envVarMalformed = .error ⟨"json.JSONDecodeError"⟩) ∧
      ∃ o, credentialBootstrap envVarAbsent = .ok o :=
  ⟨⟨rfl, by decide, rfl,
    (c2_fatal_only_on_malformed_json envVarMalformed).1 "not valid json" rfl (by decide) rfl⟩,
    (c2_fatal_only_on_malformed_json envVarAbsent).2 (Or.inl rfl)⟩
